import Mathlib

/-!
# grpc12factor: the runtime (`runtime.go`)

A shallow embedding of `NewRuntime`, `Runtime.Serve` and `Runtime.Shutdown`.
Every call the Go code makes on a collaborator (logger, gRPC server, debug
HTTP server, tracer, multiplexer, error group, `net`, `os/signal`) is
recorded, in program order, in a list of `Call`s; what a collaborator
returns is an input of the model.
-/

namespace Grpc12Factor

/-! ## Handles and values -/

/-- A Go `error` value (non-nil), by its message. -/
abbrev Err := String

/-- Handle of a `*zap.Logger`. -/
structure ZapLogger where
  id : Nat
  deriving DecidableEq, Repr

/-- Handle of a `*grpc.Server`. -/
structure GrpcServer where
  id : Nat
  deriving DecidableEq, Repr

/-- Handle of a `*http.ServeMux`. -/
structure ServeMux where
  id : Nat
  deriving DecidableEq, Repr

/-- The `*http.Server` literal `&http.Server{Handler: r.Router}`. -/
structure HttpServer where
  Handler : ServeMux
  deriving DecidableEq, Repr

/-- Handle of a `*pg.DB`. -/
structure PgDB where
  id : Nat
  deriving DecidableEq, Repr

/-- Handle of an `io.Closer` (the tracer). -/
structure Closer where
  id : Nat
  deriving DecidableEq, Repr

/-- The struct `Runtime` of `runtime.go`. -/
structure Runtime where
  Log : ZapLogger
  Server : GrpcServer
  Debug : HttpServer
  Store : PgDB
  Router : ServeMux
  Closer : Closer
  deriving DecidableEq, Repr

/-- OS signals that occur in the model. -/
inductive Signal
  | SIGHUP
  | SIGINT
  | SIGKILL
  | SIGTERM
  | SIGSTOP
  deriving DecidableEq, Repr

/-- The constant `os.Interrupt` (`syscall.SIGINT`). -/
def osInterrupt : Signal := .SIGINT

/-- The constant `os.Kill` (`syscall.SIGKILL`). -/
def osKill : Signal := .SIGKILL

/-- Whether a program can catch the signal: `SIGKILL` and `SIGSTOP` may not
be caught, so `signal.Notify` has no effect on them. -/
def Signal.catchable : Signal → Bool
  | .SIGKILL => false
  | .SIGSTOP => false
  | _ => true

/-- A `context.Context`: a root context, or a context derived from a parent
with its own cancel function. -/
inductive Ctx
  | root (id : Nat)
  | withCancel (parent : Ctx)
  deriving DecidableEq, Repr

/-- Whether `ctx.Done()` is closed, given the contexts whose cancel function
has been called: a context is done when it or one of its ancestors has been
cancelled. -/
def Ctx.done (cancelled : List Ctx) : Ctx → Bool
  | .root i => cancelled.contains (.root i)
  | .withCancel p => cancelled.contains (.withCancel p) || Ctx.done cancelled p

/-- A `net.Listener` bound by `Serve`. -/
inductive Listener
  | tcp (address : String)
  | autocert (domains : List String)
  deriving DecidableEq, Repr

/-- A cmux matcher, as constructed in `Serve`. -/
inductive Matcher
  | HTTP2HeaderField (name value : String)
  | HTTP1Fast (extMethods : List String)
  deriving DecidableEq, Repr

/-- The listener returned by the `index`-th `Match` call on the multiplexer
over `root`. -/
structure MuxListener where
  root : Listener
  index : Nat
  deriving DecidableEq, Repr

/-- The value `cmux.New(listener)` and its registered matchers, in
registration order. -/
structure CMux where
  root : Listener
  sls : List (Matcher × MuxListener)
  deriving DecidableEq, Repr

/-- The three functions handed to `group.Go` in `Serve`. -/
inductive Task
  | grpcServe (srv : GrpcServer) (l : MuxListener)
  | debugServe (srv : HttpServer) (l : MuxListener)
  | muxServe (m : CMux)
  deriving DecidableEq, Repr

/-- Which collaborator's serve loop a task runs. -/
inductive TaskKind
  | grpc
  | debug
  | mux
  deriving DecidableEq, Repr

/-- The kind of a task. -/
def Task.kind : Task → TaskKind
  | .grpcServe _ _ => .grpc
  | .debugServe _ _ => .debug
  | .muxServe _ => .mux

/-! ## Calls and runs -/

/-- One call made by the code on a collaborator. -/
inductive Call
  | zapNewDevelopment
  | transportNewMux
  | traceNewTracer (name : String)
  | storeNewStore
  | transportNewGrpc
  | logDebug (log : ZapLogger) (msg : String) (fields : List (String × String))
  | stdLogFatal (err : Err)
  | errgroupWithContext (parent : Ctx)
  | netListen (network address : String)
  | autocertNewListener (domains : List String)
  | cmuxNew (root : Listener)
  | cmuxMatch (m : Matcher)
  | groupGo (t : Task)
  | groupWait
  | ctxCancel (c : Ctx)
  | signalNotify (sigs : List Signal)
  | grpcGracefulStop (srv : GrpcServer)
  | debugShutdown (srv : HttpServer) (ctx : Ctx)
  | closerClose (c : Closer)
  deriving DecidableEq, Repr

/-- How a piece of code ends: it returns a value, it terminates the process
with an exit code, or it blocks forever. -/
inductive Outcome (α : Type)
  | returned (a : α)
  | exited (code : Nat)
  | blocked
  deriving DecidableEq, Repr

/-- A run of a piece of code: the calls it made, in order, and how it
ended. -/
structure Run (α : Type) where
  calls : List Call
  out : Outcome α

/-- Sequencing: the second part runs only when the first returned. -/
def Run.bind {α β : Type} (x : Run α) (f : α → Run β) : Run β :=
  match x.out with
  | .returned a => ⟨x.calls ++ (f a).calls, (f a).out⟩
  | .exited c => ⟨x.calls, .exited c⟩
  | .blocked => ⟨x.calls, .blocked⟩

instance : Monad Run where
  pure a := ⟨[], .returned a⟩
  bind := Run.bind

/-- A call that returns `result`. -/
def call {α : Type} (c : Call) (result : α) : Run α := ⟨[c], .returned result⟩

/-- A call that terminates the process (`os.Exit(code)` inside). -/
def callExit {α : Type} (c : Call) (code : Nat) : Run α := ⟨[c], .exited code⟩

/-- Code that never proceeds. -/
def block {α : Type} : Run α := ⟨[], .blocked⟩

/-! ## `Runtime.Shutdown` -/

/-- The two cases of the `select` in the function returned by `Shutdown`. -/
inductive Branch
  | signal
  | ctxDone
  deriving DecidableEq, Repr

/-- Go's `select` over the two receive cases: it blocks while neither is
ready, takes the ready one when exactly one is, and takes one of them
(`pick`, the runtime's choice) when both are. -/
def goSelect (signalReady ctxDone : Bool) (pick : Branch) : Option Branch :=
  match signalReady, ctxDone with
  | true, true => some pick
  | true, false => some .signal
  | false, true => some .ctxDone
  | false, false => none

/-- What the process sees while the function returned by `Shutdown` runs. -/
structure World where
  /-- signals delivered to the process -/
  delivered : List Signal
  /-- contexts whose cancel function has been called -/
  cancelled : List Ctx
  /-- the runtime's choice when both cases of the `select` are ready -/
  pick : Branch
  /-- result of `r.Debug.Shutdown(ctx)` (`none` is a nil error) -/
  debugShutdown : Option Err
  /-- result of `r.Closer.Close()` (`none` is a nil error) -/
  closerClose : Option Err

/-- Whether `signal.Notify(c, registered...)` relays signal `s` to the
channel. -/
def relayed (registered : List Signal) (s : Signal) : Bool :=
  s.catchable && registered.contains s

/-- The closure returned by `Shutdown`: it captures the runtime, the context
and the channel on which the registered signals are relayed. -/
structure ShutdownFunc where
  r : Runtime
  ctx : Ctx
  registered : List Signal
  deriving DecidableEq, Repr

/-- `func (r *Runtime) Shutdown(ctx context.Context) func()`. -/
def Shutdown (r : Runtime) (ctx : Ctx) : Run ShutdownFunc := do
  let signals := [osInterrupt, osKill]
  call (.signalNotify signals) ()
  return { r := r, ctx := ctx, registered := signals }

/-- One invocation of the function returned by `Shutdown`. A delivered
signal that is not relayed to the channel takes its default action, which
for every signal of the model ends the process at once (exit status
`128 + n` is not modelled; the code `2` stands for "killed by a signal"). -/
def ShutdownFunc.invoke (f : ShutdownFunc) (w : World) : Run Unit :=
  if w.delivered.any (fun s => !relayed f.registered s) then
    ⟨[], .exited 2⟩
  else
    match goSelect (w.delivered.any (relayed f.registered)) (f.ctx.done w.cancelled) w.pick with
    | none => block
    | some .signal => do
      call (.logDebug f.r.Log "signal received, shutting down..." []) ()
      call (.grpcGracefulStop f.r.Server) ()
      let _ ← call (.debugShutdown f.r.Debug f.ctx) w.debugShutdown
      let _ ← call (.closerClose f.r.Closer) w.closerClose
      return ()
    | some .ctxDone => do
      call (.logDebug f.r.Log "context done, shutting down..." []) ()
      call (.grpcGracefulStop f.r.Server) ()
      let _ ← call (.debugShutdown f.r.Debug f.ctx) w.debugShutdown
      let _ ← call (.closerClose f.r.Closer) w.closerClose
      return ()

/-- The teardown steps among a list of calls. -/
def teardownCalls (cs : List Call) : List Call :=
  cs.filter fun c =>
    match c with
    | .grpcGracefulStop _ => true
    | .debugShutdown _ _ => true
    | .closerClose _ => true
    | _ => false

/-- The log entries among a list of calls, as (message, fields). -/
def logEntries (cs : List Call) : List (String × List (String × String)) :=
  cs.filterMap fun c =>
    match c with
    | .logDebug _ msg fields => some (msg, fields)
    | .stdLogFatal err => some (err, [])
    | _ => none

/-- Whether some log entry among the calls carries the error `e`, as its
message or as the value of one of its fields. -/
def logged (e : Err) (cs : List Call) : Bool :=
  (logEntries cs).any fun en => en.1 == e || en.2.any fun kv => kv.2 == e

/-! ## `NewRuntime` -/

/-- What the constructors called by `NewRuntime` return. -/
structure NewRuntimeEnv where
  /-- result of `zap.NewDevelopment()` -/
  zapNewDevelopment : Except Err ZapLogger
  /-- result of `transport.NewMux()` -/
  transportNewMux : ServeMux
  /-- result of `trace.NewTracer(name)` -/
  traceNewTracer : String → Except Err Closer
  /-- result of `store.NewStore()` -/
  storeNewStore : PgDB
  /-- result of `transport.NewGrpc()` -/
  transportNewGrpc : GrpcServer

/-- `func NewRuntime() (*Runtime, error)`: the returned pair is the pointer
(`none` is nil) and the error (`none` is nil). -/
def NewRuntime (env : NewRuntimeEnv) : Run (Option Runtime × Option Err) := do
  match ← call .zapNewDevelopment env.zapNewDevelopment with
  | .error err => return (none, some err)
  | .ok log =>
    let router ← call .transportNewMux env.transportNewMux
    let debug : HttpServer := { Handler := router }
    match ← call (.traceNewTracer "grpc_server") (env.traceNewTracer "grpc_server") with
    | .error err => return (none, some err)
    | .ok closer =>
      let store ← call .storeNewStore env.storeNewStore
      let server ← call .transportNewGrpc env.transportNewGrpc
      return (some { Log := log, Server := server, Debug := debug, Store := store,
                     Router := router, Closer := closer }, none)

/-! ## The multiplexer -/

/-- `cmux.New(l)`. -/
def cmuxNew (l : Listener) : CMux := { root := l, sls := [] }

/-- `m.Match(matcher)`: registers the matcher after those already registered
and returns the multiplexer so extended and the new listener. -/
def CMux.Match (m : CMux) (matcher : Matcher) : CMux × MuxListener :=
  let ml : MuxListener := { root := m.root, index := m.sls.length }
  ({ m with sls := m.sls ++ [(matcher, ml)] }, ml)

/-- An accepted connection, by what classification can see of it: an HTTP/2
connection (client preface, then a HEADERS frame with the given header
fields), or any other connection, by its leading bytes. -/
inductive Conn
  | http2 (fields : List (String × String))
  | bytes (lead : String)
  deriving DecidableEq, Repr

/-- The HTTP/2 client connection preface. -/
def http2ClientPreface : String := "PRI * HTTP/2.0\r\n\r\nSM\r\n\r\n"

/-- The leading bytes of a connection. -/
def Conn.lead : Conn → String
  | .http2 _ => http2ClientPreface
  | .bytes s => s

/-- The request methods `HTTP1Fast` looks for when given no extension. -/
def defaultHTTPMethods : List String :=
  ["OPTIONS", "GET", "HEAD", "POST", "PUT", "DELETE", "TRACE", "CONNECT"]

/-- Modelled from the spec: the classifier predicates (package cmux is not
under src/). A predicate operates "on either a protocol-negotiation header
(e.g., a specific request header value) or on the initial byte sequence of
the connection": `HTTP2HeaderField name value` holds of an HTTP/2 connection
that sends the header field `name` with value `value`; `HTTP1Fast ext`, of
which the spec gives no more than the name used in `Serve`, holds of a
connection whose leading bytes start with an HTTP/1 request method (the
default ones or one of `ext`). -/
def Matcher.test : Matcher → Conn → Bool
  | .HTTP2HeaderField name value, .http2 fields =>
      fields.any fun hf => hf.1 == name && hf.2 == value
  | .HTTP2HeaderField _ _, .bytes _ => false
  | .HTTP1Fast extMethods, c =>
      (defaultHTTPMethods ++ extMethods).any fun m => m.toList.isPrefixOf c.lead.toList

/-- Modelled from the spec: routing of one accepted connection by the
multiplexer's serve loop (package cmux is not under src/). "Predicates are
evaluated in registration order for each new connection; the first predicate
that matches claims the connection; later predicates are not tried"; "if no
predicate matches, the connection is closed" (`none`). -/
def CMux.route (m : CMux) (c : Conn) : Option MuxListener :=
  (m.sls.find? fun p => p.1.test c).map fun p => p.2

/-- Whether the task is a server's serve loop accepting on listener `l`. -/
def Task.accepts (t : Task) (l : MuxListener) : Bool :=
  match t with
  | .grpcServe _ l1 => l1 == l
  | .debugServe _ l1 => l1 == l
  | .muxServe _ => false

/-- The serve loops, among `tasks`, that receive connection `c` once a
multiplexer among `tasks` has routed it. -/
def consumers (tasks : List Task) (c : Conn) : List Task :=
  tasks.flatMap fun t =>
    match t with
    | .muxServe m =>
      match m.route c with
      | some l => tasks.filter fun s => s.accepts l
      | none => []
    | _ => []

/-! ## The error group -/

/-- Modelled from the spec: the error-propagating group (package errgroup is
not under src/): the context derived for the group, the tasks started and
not yet returned, and the first error returned by a task. -/
structure Group where
  ctx : Ctx
  running : List Task
  err : Option Err
  cancelled : Bool
  deriving DecidableEq, Repr

/-- `errgroup.WithContext(ctx)`: a new group and a context derived from
`ctx`. -/
def errgroupWithContext (ctx : Ctx) : Group × Ctx :=
  ({ ctx := .withCancel ctx, running := [], err := none, cancelled := false }, .withCancel ctx)

/-- `group.Go(f)`: the task is started. -/
def Group.Go (g : Group) (t : Task) : Group :=
  { g with running := g.running ++ [t] }

/-- Modelled from the spec: a running task of kind `k` returns `r`. The
first non-nil error is kept and the group's context is cancelled
("first-failure-wins"); a kind with no running task changes nothing. -/
def Group.taskDone (g : Group) (k : TaskKind) (r : Option Err) : Group :=
  if g.running.any (fun t => t.kind == k) then
    let g1 : Group :=
      match r, g.err with
      | some e, none => { g with err := some e, cancelled := true }
      | _, _ => g
    { g1 with running := g1.running.filter fun t => t.kind != k }
  else g

/-- The group after the tasks of kinds `completions` have returned, in that
order, task `k` returning `result k`. -/
def Group.settle (g : Group) (result : TaskKind → Option Err) (completions : List TaskKind) :
    Group :=
  completions.foldl (fun g k => g.taskDone k (result k)) g

/-- Modelled from the spec: `group.Wait()`. "If any of the three tasks
terminates with an error, the group's wait operation returns that error once
all three tasks ... have actually stopped": it blocks while a task is
running, and then returns the first error (nil when there was none). The
group's context is cancelled by the first failing task and when the wait
returns. -/
def Group.Wait (g : Group) (result : TaskKind → Option Err) (completions : List TaskKind) :
    Run (Option Err) := do
  call .groupWait ()
  let g1 := g.settle result completions
  if g1.cancelled then
    call (.ctxCancel g1.ctx) ()
  if g1.running.isEmpty then
    call (.ctxCancel g1.ctx) ()
    return g1.err
  else
    block

/-! ## `Runtime.Serve` -/

/-- What `Serve` reads from the configuration and gets from its
collaborators. -/
structure ServeEnv where
  /-- `viper.GetString("grpc_port")` -/
  grpc_port : String
  /-- `viper.GetStringSlice("domains")` -/
  domains : List String
  /-- the error returned by `net.Listen` (`none` is nil) -/
  netListen : Option Err
  /-- what each serve loop returns, when it returns (`none` is nil) -/
  result : TaskKind → Option Err
  /-- the serve loops that return, in the order in which they return; a
  serve loop that is not listed never returns -/
  completions : List TaskKind

/-- `func (r *Runtime) Serve(ctx context.Context) error`. -/
def Serve (r : Runtime) (ctx : Ctx) (env : ServeEnv) : Run (Option Err) := do
  let (group, _ctx) ← call (.errgroupWithContext ctx) (errgroupWithContext ctx)
  let err ← call (.netListen "tcp" env.grpc_port) env.netListen
  let listener : Listener := .tcp env.grpc_port
  let _ ← (match err with
    | some e => callExit (.stdLogFatal e) 1
    | none => pure () : Run Unit)
  let listener ← (
    if env.grpc_port = ":443" then
      let x := env.domains
      if x.length < 1 then do
        call (.logDebug r.Log
          "failed to create tls certificates, must add domains to config.yaml before enabling tls"
          []) ()
        pure listener
      else do
        call (.logDebug r.Log "creating tls certificates and registering listener..." []) ()
        call (.autocertNewListener env.domains) (Listener.autocert env.domains)
    else pure listener : Run Listener)
  let m ← call (.cmuxNew listener) (cmuxNew listener)
  let (m, grpcListener) ←
    call (.cmuxMatch (.HTTP2HeaderField "content-type" "application/grpc"))
      (m.Match (.HTTP2HeaderField "content-type" "application/grpc"))
  let (m, httpListener) ← call (.cmuxMatch (.HTTP1Fast [])) (m.Match (.HTTP1Fast []))
  call (.logDebug r.Log "Starting grpc service.." [("grpc_port", env.grpc_port)]) ()
  let group ← call (.groupGo (.grpcServe r.Server grpcListener))
    (group.Go (.grpcServe r.Server grpcListener))
  call (.logDebug r.Log "Starting debug service.." [("grpc_port", env.grpc_port)]) ()
  let group ← call (.groupGo (.debugServe r.Debug httpListener))
    (group.Go (.debugServe r.Debug httpListener))
  let group ← call (.groupGo (.muxServe m)) (group.Go (.muxServe m))
  group.Wait env.result env.completions

/-- The tasks started with `group.Go` among a list of calls, in order. -/
def launched (cs : List Call) : List Task :=
  cs.filterMap fun c =>
    match c with
    | .groupGo t => some t
    | _ => none

/-- The matchers registered with `Match` among a list of calls, in order. -/
def registeredMatchers (cs : List Call) : List Matcher :=
  cs.filterMap fun c =>
    match c with
    | .cmuxMatch m => some m
    | _ => none

/-- The contexts cancelled among a list of calls. -/
def cancelledBy (cs : List Call) : List Ctx :=
  cs.filterMap fun c =>
    match c with
    | .ctxCancel c => some c
    | _ => none

/-! ## Example values and auxiliary definitions -/

/-- A runtime with distinct handles. -/
def r0 : Runtime :=
  { Log := ⟨1⟩, Server := ⟨2⟩, Debug := ⟨⟨3⟩⟩, Store := ⟨4⟩, Router := ⟨3⟩, Closer := ⟨5⟩ }

/-- The world of the example runs: `SIGINT` was delivered, no context is
cancelled, and both fallible teardown steps fail. -/
def w0 : World :=
  { delivered := [.SIGINT], cancelled := [], pick := .signal,
    debugShutdown := some "http: shutdown failed",
    closerClose := some "tracer: close failed" }

/-- The configuration of the example runs: the address `:9090`, no domain,
`net.Listen` succeeds, the gRPC serve loop fails with "boom" and nothing
stops the two other serve loops, which never return. -/
def env0 : ServeEnv :=
  { grpc_port := ":9090", domains := [], netListen := none,
    result := fun k => if k = .grpc then some "boom" else none,
    completions := [.grpc] }

/-- Number of derivation steps between a context and its root. -/
def Ctx.depth : Ctx → Nat
  | .root _ => 0
  | .withCancel p => p.depth + 1

/-- The listener `Serve` hands to `cmux.New` once `net.Listen` succeeded. -/
def servedListener (env : ServeEnv) : Listener :=
  if env.grpc_port = ":443" ∧ ¬ env.domains.length < 1 then .autocert env.domains
  else .tcp env.grpc_port

/-- The calls of the `:443` block of `Serve`. -/
def tlsCalls (r : Runtime) (env : ServeEnv) : List Call :=
  if env.grpc_port = ":443" then
    if env.domains.length < 1 then
      [.logDebug r.Log
        "failed to create tls certificates, must add domains to config.yaml before enabling tls"
        []]
    else
      [.logDebug r.Log "creating tls certificates and registering listener..." [],
        .autocertNewListener env.domains]
  else []

/-- The three tasks `Serve` starts over listener `l`. -/
def servedTasks (r : Runtime) (l : Listener) : List Task :=
  [.grpcServe r.Server ⟨l, 0⟩, .debugServe r.Debug ⟨l, 1⟩,
    .muxServe ⟨l, [(.HTTP2HeaderField "content-type" "application/grpc", ⟨l, 0⟩),
      (.HTTP1Fast [], ⟨l, 1⟩)]⟩]

/-- The group of `Serve` when it calls `Wait`. -/
def servedGroup (r : Runtime) (ctx : Ctx) (l : Listener) : Group :=
  { ctx := .withCancel ctx, running := servedTasks r l, err := none, cancelled := false }

/-- A configuration in which the three serve loops return: the multiplexer
first, with nil, then the gRPC server with "x", then the debug server with
"boom". -/
def env1 : ServeEnv :=
  { grpc_port := ":9090", domains := [], netListen := none,
    result := fun k =>
      match k with
      | .grpc => some "x"
      | .debug => some "boom"
      | .mux => none,
    completions := [.mux, .grpc, .debug] }

/-- Constructors of the example runs: the logger cannot be built. -/
def newEnvNoLogger : NewRuntimeEnv :=
  { zapNewDevelopment := .error "zap: no logger", transportNewMux := ⟨3⟩,
    traceNewTracer := fun _ => .ok ⟨5⟩, storeNewStore := ⟨4⟩, transportNewGrpc := ⟨2⟩ }

/-- Constructors of the example runs: the tracer cannot be built. -/
def newEnvNoTracer : NewRuntimeEnv :=
  { zapNewDevelopment := .ok ⟨1⟩, transportNewMux := ⟨3⟩,
    traceNewTracer := fun _ => .error "trace: no exporter", storeNewStore := ⟨4⟩,
    transportNewGrpc := ⟨2⟩ }

/-- A configuration in which a failure is followed by no return of `Serve`:
the debug serve loop fails with "debug: accept failed", the gRPC serve loop
returns nil after it, and the multiplexer's serve loop keeps running. -/
def env2 : ServeEnv :=
  { grpc_port := ":9090", domains := [], netListen := none,
    result := fun k => if k = .debug then some "debug: accept failed" else none,
    completions := [.debug, .grpc] }

/-! ## `Runtime.Shutdown`: the teardown sequence -/

theorem any_not_relayed_of_all {reg : List Signal} {ds : List Signal}
    (h : ds.all (relayed reg) = true) : ds.any (fun s => !relayed reg s) = false := by
  induction ds with
  | nil => rfl
  | cons d ds ih =>
    simp only [List.all_cons, Bool.and_eq_true] at h
    simp only [List.any_cons, h.1, ih h.2, Bool.not_true, Bool.or_self]

theorem any_relayed_of_all {reg : List Signal} {ds : List Signal}
    (h : ds.all (relayed reg) = true) (hne : ds ≠ []) : ds.any (relayed reg) = true := by
  cases ds with
  | nil => exact absurd rfl hne
  | cons d ds =>
    simp only [List.all_cons, Bool.and_eq_true] at h
    simp only [List.any_cons, h.1, Bool.true_or]

/-- Once a trigger has fired (a relayed signal, or the context is done), one
invocation of the shutdown function logs one fixed message, makes the three
teardown calls in order, and returns. -/
theorem invoke_of_trigger (f : ShutdownFunc) (w : World)
    (hrel : w.delivered.all (relayed f.registered) = true)
    (htrig : w.delivered ≠ [] ∨ f.ctx.done w.cancelled = true) :
    ∃ msg, (msg = "signal received, shutting down..." ∨ msg = "context done, shutting down...") ∧
      f.invoke w =
        ⟨[.logDebug f.r.Log msg [], .grpcGracefulStop f.r.Server,
          .debugShutdown f.r.Debug f.ctx, .closerClose f.r.Closer], .returned ()⟩ := by
  have hk := any_not_relayed_of_all hrel
  unfold ShutdownFunc.invoke
  rw [hk]
  simp only [Bool.false_eq_true, if_false]
  cases hs : w.delivered.any (relayed f.registered) <;>
    cases hc : f.ctx.done w.cancelled <;> cases hp : w.pick
  all_goals first
    | exact ⟨_, Or.inl rfl, rfl⟩
    | exact ⟨_, Or.inr rfl, rfl⟩
    | (exfalso
       rcases htrig with h | h
       · rw [any_relayed_of_all hrel h] at hs
         exact Bool.noConfusion hs
       · rw [hc] at h
         exact Bool.noConfusion h)

/-- The function `Shutdown` returns, for runtime `r` and context `ctx`. -/
theorem Shutdown_eq (r : Runtime) (ctx : Ctx) :
    Shutdown r ctx =
      ⟨[.signalNotify [.SIGINT, .SIGKILL]],
        .returned { r := r, ctx := ctx, registered := [.SIGINT, .SIGKILL] }⟩ := rfl

/-- C1: whichever trigger fires (a relayed OS signal, the cancellation of
the context, or both at once, whatever case the `select` then takes), one
invocation of the function returned by `Runtime.Shutdown` returns after
making exactly the teardown calls gRPC `GracefulStop`, `Debug.Shutdown`,
`Closer.Close`, each once and in that order; the only other call is the one
debug log line written first, so both branches make the same teardown
calls. -/
theorem Shutdown_teardown_in_order (r : Runtime) (ctx : Ctx) (w : World)
    (hrel : w.delivered.all (relayed [osInterrupt, osKill]) = true)
    (htrig : w.delivered ≠ [] ∨ ctx.done w.cancelled = true) :
    ∃ f, (Shutdown r ctx).out = .returned f ∧
      (f.invoke w).out = .returned () ∧
      teardownCalls (f.invoke w).calls =
        [.grpcGracefulStop r.Server, .debugShutdown r.Debug ctx, .closerClose r.Closer] ∧
      (f.invoke w).calls.length = 4 := by
  refine ⟨{ r := r, ctx := ctx, registered := [.SIGINT, .SIGKILL] }, rfl, ?_⟩
  obtain ⟨msg, _, h⟩ :=
    invoke_of_trigger { r := r, ctx := ctx, registered := [.SIGINT, .SIGKILL] } w hrel htrig
  rw [h]
  exact ⟨rfl, rfl, rfl⟩

/-- Witness of C1: `SIGINT` is delivered while the context is cancelled as
well, and the `select` takes the context case. -/
theorem Shutdown_teardown_in_order_witness :
    ∃ f, (Shutdown r0 (.root 0)).out = .returned f ∧
      (f.invoke { w0 with cancelled := [.root 0], pick := .ctxDone }).out = .returned () ∧
      teardownCalls (f.invoke { w0 with cancelled := [.root 0], pick := .ctxDone }).calls =
        [.grpcGracefulStop r0.Server, .debugShutdown r0.Debug (.root 0),
          .closerClose r0.Closer] ∧
      (f.invoke { w0 with cancelled := [.root 0], pick := .ctxDone }).calls.length = 4 :=
  Shutdown_teardown_in_order r0 (.root 0) { w0 with cancelled := [.root 0], pick := .ctxDone }
    (by decide) (Or.inl (by decide))

/-- C2: in the function returned by `Runtime.Shutdown`, whatever
`Debug.Shutdown` and `Closer.Close` return (nil or an error, in every
combination), the calls made are those made when both succeed, and they end
with `GracefulStop`, `Debug.Shutdown`, `Closer.Close`: no result of an
earlier step skips a later one. (`GracefulStop` returns no value, so it has
no error result.) -/
theorem Shutdown_steps_not_skipped (r : Runtime) (ctx : Ctx) (w : World)
    (d c : Option Err)
    (hrel : w.delivered.all (relayed [osInterrupt, osKill]) = true)
    (htrig : w.delivered ≠ [] ∨ ctx.done w.cancelled = true) :
    ∃ f pre, (Shutdown r ctx).out = .returned f ∧
      (f.invoke { w with debugShutdown := d, closerClose := c }).calls =
        pre ++ [.grpcGracefulStop r.Server, .debugShutdown r.Debug ctx,
          .closerClose r.Closer] ∧
      (f.invoke { w with debugShutdown := d, closerClose := c }).calls =
        (f.invoke { w with debugShutdown := none, closerClose := none }).calls ∧
      teardownCalls pre = [] := by
  obtain ⟨msg, _, h⟩ :=
    invoke_of_trigger { r := r, ctx := ctx, registered := [.SIGINT, .SIGKILL] }
      { w with debugShutdown := d, closerClose := c } hrel htrig
  refine ⟨{ r := r, ctx := ctx, registered := [.SIGINT, .SIGKILL] },
    [.logDebug r.Log msg []], rfl, ?_, ?_, rfl⟩
  · rw [h]; rfl
  · have e : ShutdownFunc.invoke { r := r, ctx := ctx, registered := [.SIGINT, .SIGKILL] }
        { w with debugShutdown := d, closerClose := c } =
        ShutdownFunc.invoke { r := r, ctx := ctx, registered := [.SIGINT, .SIGKILL] }
        { w with debugShutdown := none, closerClose := none } := by
      unfold ShutdownFunc.invoke
      simp only
      split
      · rfl
      · split <;> rfl
    rw [e]

/-- Witness of C2: `SIGINT` is delivered and both fallible steps fail. -/
theorem Shutdown_steps_not_skipped_witness :
    ∃ f pre, (Shutdown r0 (.root 0)).out = .returned f ∧
      (f.invoke { w0 with debugShutdown := some "http: shutdown failed",
                          closerClose := some "tracer: close failed" }).calls =
        pre ++ [.grpcGracefulStop r0.Server, .debugShutdown r0.Debug (.root 0),
          .closerClose r0.Closer] ∧
      (f.invoke { w0 with debugShutdown := some "http: shutdown failed",
                          closerClose := some "tracer: close failed" }).calls =
        (f.invoke { w0 with debugShutdown := none, closerClose := none }).calls ∧
      teardownCalls pre = [] :=
  Shutdown_steps_not_skipped r0 (.root 0) w0 (some "http: shutdown failed")
    (some "tracer: close failed") (by decide) (Or.inl (by decide))

/-- C3, counterexample: `SIGINT` is delivered, `Debug.Shutdown` fails with
"http: shutdown failed" and `Closer.Close` fails with "tracer: close
failed"; the invocation returns, and its only log entry is the fixed line
written before the teardown steps, so neither error is logged. -/
theorem Shutdown_errors_not_logged :
    (Shutdown r0 (.root 0)).out =
        .returned { r := r0, ctx := .root 0, registered := [.SIGINT, .SIGKILL] } ∧
      w0.debugShutdown = some "http: shutdown failed" ∧
      w0.closerClose = some "tracer: close failed" ∧
      logEntries (ShutdownFunc.invoke
          { r := r0, ctx := .root 0, registered := [.SIGINT, .SIGKILL] } w0).calls =
        [("signal received, shutting down...", [])] ∧
      ¬ (logged "http: shutdown failed" (ShutdownFunc.invoke
          { r := r0, ctx := .root 0, registered := [.SIGINT, .SIGKILL] } w0).calls = true) ∧
      ¬ (logged "tracer: close failed" (ShutdownFunc.invoke
          { r := r0, ctx := .root 0, registered := [.SIGINT, .SIGKILL] } w0).calls = true) := by
  refine ⟨rfl, rfl, rfl, rfl, ?_, ?_⟩ <;> decide

/-- C3, amended: when `Debug.Shutdown` or `Closer.Close` fails in the
function returned by `Runtime.Shutdown`, the error is discarded: the
invocation returns normally (no exit, nothing propagated), and its log
entries are the single fixed debug line of the branch taken, whatever the two
steps return. -/
theorem Shutdown_errors_discarded (r : Runtime) (ctx : Ctx) (w : World)
    (d c : Option Err)
    (hrel : w.delivered.all (relayed [osInterrupt, osKill]) = true)
    (htrig : w.delivered ≠ [] ∨ ctx.done w.cancelled = true) :
    ∃ f, (Shutdown r ctx).out = .returned f ∧
      (f.invoke { w with debugShutdown := d, closerClose := c }).out = .returned () ∧
      (logEntries (f.invoke { w with debugShutdown := d, closerClose := c }).calls =
          [("signal received, shutting down...", [])] ∨
        logEntries (f.invoke { w with debugShutdown := d, closerClose := c }).calls =
          [("context done, shutting down...", [])]) := by
  obtain ⟨msg, hmsg, h⟩ :=
    invoke_of_trigger { r := r, ctx := ctx, registered := [.SIGINT, .SIGKILL] }
      { w with debugShutdown := d, closerClose := c } hrel htrig
  refine ⟨{ r := r, ctx := ctx, registered := [.SIGINT, .SIGKILL] }, rfl, ?_⟩
  rw [h]
  refine ⟨rfl, ?_⟩
  rcases hmsg with rfl | rfl
  · exact Or.inl rfl
  · exact Or.inr rfl

/-- Witness of C3 amended: the context is cancelled and both steps fail. -/
theorem Shutdown_errors_discarded_witness :
    ∃ f, (Shutdown r0 (.root 0)).out = .returned f ∧
      (f.invoke { ({ w0 with delivered := [], cancelled := [.root 0] } : World) with
          debugShutdown := some "e1", closerClose := some "e2" }).out = .returned () ∧
      (logEntries (f.invoke { ({ w0 with delivered := [], cancelled := [.root 0] } : World) with
          debugShutdown := some "e1", closerClose := some "e2" }).calls =
          [("signal received, shutting down...", [])] ∨
        logEntries (f.invoke { ({ w0 with delivered := [], cancelled := [.root 0] } : World) with
          debugShutdown := some "e1", closerClose := some "e2" }).calls =
          [("context done, shutting down...", [])]) :=
  Shutdown_errors_discarded r0 (.root 0) { w0 with delivered := [], cancelled := [.root 0] }
    (some "e1") (some "e2") (by decide) (Or.inr (by decide))

/-- C5, the code at the failing input: `Shutdown` registers `os.Interrupt`
and `os.Kill`, that is `SIGINT` and `SIGKILL`; `SIGTERM` is not registered
and `SIGKILL` cannot be caught, so only `SIGINT` is relayed to the channel,
and when `SIGTERM` is delivered the process ends without a single teardown
call. -/
theorem Shutdown_registers_sigkill_not_sigterm :
    (Shutdown r0 (.root 0)).calls = [.signalNotify [.SIGINT, .SIGKILL]] ∧
      (Shutdown r0 (.root 0)).out =
        .returned { r := r0, ctx := .root 0, registered := [.SIGINT, .SIGKILL] } ∧
      relayed [.SIGINT, .SIGKILL] .SIGINT = true ∧
      relayed [.SIGINT, .SIGKILL] .SIGTERM = false ∧
      relayed [.SIGINT, .SIGKILL] .SIGKILL = false ∧
      ShutdownFunc.invoke { r := r0, ctx := .root 0, registered := [.SIGINT, .SIGKILL] }
          { w0 with delivered := [.SIGTERM] } = ⟨[], .exited 2⟩ :=
  ⟨rfl, rfl, rfl, rfl, rfl, rfl⟩

/-! ## `Runtime.Serve`: the shape of a run -/

/-- The run of `Serve` when `net.Listen` succeeds. -/
theorem Serve_listen_ok (r : Runtime) (ctx : Ctx) (env : ServeEnv)
    (h : env.netListen = none) :
    Serve r ctx env =
      ⟨[.errgroupWithContext ctx, .netListen "tcp" env.grpc_port] ++ tlsCalls r env ++
        [.cmuxNew (servedListener env),
          .cmuxMatch (.HTTP2HeaderField "content-type" "application/grpc"),
          .cmuxMatch (.HTTP1Fast []),
          .logDebug r.Log "Starting grpc service.." [("grpc_port", env.grpc_port)],
          .groupGo (.grpcServe r.Server ⟨servedListener env, 0⟩),
          .logDebug r.Log "Starting debug service.." [("grpc_port", env.grpc_port)],
          .groupGo (.debugServe r.Debug ⟨servedListener env, 1⟩),
          .groupGo (.muxServe ⟨servedListener env,
            [(.HTTP2HeaderField "content-type" "application/grpc", ⟨servedListener env, 0⟩),
              (.HTTP1Fast [], ⟨servedListener env, 1⟩)]⟩)] ++
        ((servedGroup r ctx (servedListener env)).Wait env.result env.completions).calls,
       ((servedGroup r ctx (servedListener env)).Wait env.result env.completions).out⟩ := by
  unfold Serve servedListener tlsCalls
  rw [h]
  by_cases h1 : env.grpc_port = ":443"
  · by_cases h2 : env.domains.length < 1
    · simp only [h1, h2, if_true, not_true_eq_false, and_false, if_false]
      rfl
    · simp only [h1, h2, if_true, if_false, not_false_eq_true, and_true]
      rfl
  · simp only [h1, if_false, false_and]
    rfl

/-- The run of `Serve` when `net.Listen` fails. -/
theorem Serve_listen_error (r : Runtime) (ctx : Ctx) (env : ServeEnv) (e : Err)
    (h : env.netListen = some e) :
    Serve r ctx env =
      ⟨[.errgroupWithContext ctx, .netListen "tcp" env.grpc_port, .stdLogFatal e],
        .exited 1⟩ := by
  unfold Serve
  rw [h]
  rfl

/-! ## The error group -/

theorem taskDone_ctx (g : Group) (k : TaskKind) (r : Option Err) :
    (g.taskDone k r).ctx = g.ctx := by
  unfold Group.taskDone
  split
  · rcases r with _ | e <;> rcases h : g.err with _ | e0 <;> simp
  · rfl

theorem taskDone_running (g : Group) (k : TaskKind) (r : Option Err) :
    (g.taskDone k r).running = g.running.filter fun t => t.kind != k := by
  unfold Group.taskDone
  split
  · rcases r with _ | e <;> rcases h : g.err with _ | e0 <;> simp
  · rename_i hk
    symm
    rw [List.filter_eq_self]
    intro t ht
    simp only [Bool.not_eq_true, List.any_eq_false, beq_iff_eq] at hk
    simp only [bne_iff_ne, ne_eq]
    exact hk t ht

theorem taskDone_err (g : Group) (k : TaskKind) (r : Option Err) :
    (g.taskDone k r).err =
      (g.err <|> if g.running.any (fun t => t.kind == k) then r else none) := by
  unfold Group.taskDone
  split
  · rcases r with _ | e <;> rcases h : g.err with _ | e0 <;> simp [h]
  · rcases h : g.err with _ | e0 <;> simp [h]

theorem taskDone_cancelled (g : Group) (k : TaskKind) (r : Option Err)
    (h : g.cancelled = g.err.isSome) :
    (g.taskDone k r).cancelled = (g.taskDone k r).err.isSome := by
  unfold Group.taskDone
  split
  · rcases r with _ | e <;> rcases h1 : g.err with _ | e0 <;> simp [h, h1]
  · exact h

theorem settle_ctx (result : TaskKind → Option Err) (ks : List TaskKind) (g : Group) :
    (g.settle result ks).ctx = g.ctx := by
  induction ks generalizing g with
  | nil => rfl
  | cons k ks ih =>
    show ((g.taskDone k (result k)).settle result ks).ctx = g.ctx
    rw [ih, taskDone_ctx]

theorem settle_cancelled (result : TaskKind → Option Err) (ks : List TaskKind) (g : Group)
    (h : g.cancelled = g.err.isSome) :
    (g.settle result ks).cancelled = (g.settle result ks).err.isSome := by
  induction ks generalizing g with
  | nil => exact h
  | cons k ks ih => exact ih _ (taskDone_cancelled g k (result k) h)

theorem settle_running (result : TaskKind → Option Err) (ks : List TaskKind) (g : Group) :
    (g.settle result ks).running = g.running.filter fun t => !ks.contains t.kind := by
  induction ks generalizing g with
  | nil => simp [Group.settle]
  | cons k ks ih =>
    show ((g.taskDone k (result k)).settle result ks).running = _
    rw [ih, taskDone_running, List.filter_filter]
    apply List.filter_congr
    intro t _
    by_cases hk : t.kind = k
    · simp [hk]
    · have hk1 : ¬ k = t.kind := fun e => hk e.symm
      simp [List.contains_cons, hk, hk1]

/-- The first error of the group, while each kind has a running task when it
first returns: the first error in completion order. -/
theorem settle_err (result : TaskKind → Option Err) (ks : List TaskKind) (g : Group) :
    (g.settle result ks).err =
      (g.err <|> ks.findSome? fun k =>
        if g.running.any (fun t => t.kind == k) then result k else none) := by
  induction ks generalizing g with
  | nil => simp [Group.settle]
  | cons k ks ih =>
    show ((g.taskDone k (result k)).settle result ks).err = _
    rw [ih, taskDone_err, taskDone_running, List.findSome?_cons]
    rcases hg : g.err with _ | e0
    · by_cases hr : g.running.any (fun t => t.kind == k) = true
      · rcases hk : result k with _ | e
        · simp only [hr, if_true, Option.none_orElse, Option.orElse_none]
          congr 1
          funext k1
          by_cases e1 : k1 = k
          · subst e1
            simp [hk]
          · have : (List.filter (fun t => t.kind != k) g.running).any (fun t => t.kind == k1) =
                g.running.any (fun t => t.kind == k1) := by
              rw [List.any_filter]
              congr 1
              funext t
              by_cases e2 : t.kind = k1
              · simp [e2, e1]
              · simp [e2]
            rw [this]
        · simp [hr]
      · simp only [hr]
        simp only [Bool.false_eq_true, if_false, Option.none_orElse]
        have hf : List.filter (fun t => t.kind != k) g.running = g.running := by
          rw [List.filter_eq_self]
          intro t ht
          simp only [Bool.not_eq_true, List.any_eq_false, beq_iff_eq] at hr
          simp only [bne_iff_ne, ne_eq]
          exact hr t ht
        rw [hf]
    · simp

/-- What `Wait` does, from the settled group. -/
theorem Wait_eq (g : Group) (result : TaskKind → Option Err) (ks : List TaskKind) :
    g.Wait result ks =
      ⟨.groupWait ::
        ((if (g.settle result ks).cancelled then [.ctxCancel (g.settle result ks).ctx] else []) ++
          if (g.settle result ks).running.isEmpty then [.ctxCancel (g.settle result ks).ctx]
          else []),
        if (g.settle result ks).running.isEmpty then .returned (g.settle result ks).err
        else .blocked⟩ := by
  unfold Group.Wait
  cases h1 : (g.settle result ks).cancelled <;>
    cases h2 : (g.settle result ks).running.isEmpty <;> simp [h1, h2] <;> rfl

theorem served_any_kind (r : Runtime) (l : Listener) (k : TaskKind) :
    (servedTasks r l).any (fun t => t.kind == k) = true := by
  cases k <;> rfl

theorem served_err (r : Runtime) (ctx : Ctx) (l : Listener)
    (result : TaskKind → Option Err) (ks : List TaskKind) :
    ((servedGroup r ctx l).settle result ks).err = ks.findSome? result := by
  rw [settle_err]
  have : (fun k => if (servedGroup r ctx l).running.any (fun t => t.kind == k) then result k
      else none) = result := by
    funext k
    show (if (servedTasks r l).any (fun t => t.kind == k) then result k else none) = result k
    rw [served_any_kind]
    rfl
  rw [this]
  rfl

theorem served_isEmpty (r : Runtime) (ctx : Ctx) (l : Listener)
    (result : TaskKind → Option Err) (ks : List TaskKind) :
    ((servedGroup r ctx l).settle result ks).running.isEmpty =
      (ks.contains .grpc && ks.contains .debug && ks.contains .mux) := by
  rw [settle_running]
  show ((servedTasks r l).filter fun t => !ks.contains t.kind).isEmpty = _
  unfold servedTasks
  by_cases h1 : TaskKind.grpc ∈ ks <;> by_cases h2 : TaskKind.debug ∈ ks <;>
    by_cases h3 : TaskKind.mux ∈ ks <;>
    simp [List.filter_cons, Task.kind, h1, h2, h3]

theorem all_kinds_iff (ks : List TaskKind) :
    (ks.contains .grpc && ks.contains .debug && ks.contains .mux) = true ↔
      ∀ k : TaskKind, k ∈ ks := by
  simp only [Bool.and_eq_true, List.contains_eq_any_beq, List.any_eq_true, beq_iff_eq]
  constructor
  · rintro ⟨⟨⟨a, h1, e1⟩, ⟨b, h2, e2⟩⟩, ⟨c, h3, e3⟩⟩ k
    subst e1 e2 e3
    cases k <;> assumption
  · intro h
    exact ⟨⟨⟨_, h _, rfl⟩, ⟨_, h _, rfl⟩⟩, ⟨_, h _, rfl⟩⟩

/-- The outcome of `Serve` after a successful `net.Listen`: it returns the
first error in completion order once the three serve loops have returned,
and blocks otherwise. -/
theorem Serve_out (r : Runtime) (ctx : Ctx) (env : ServeEnv) (h : env.netListen = none) :
    (Serve r ctx env).out =
      if (env.completions.contains .grpc && env.completions.contains .debug &&
          env.completions.contains .mux) = true then
        .returned (env.completions.findSome? env.result)
      else .blocked := by
  rw [Serve_listen_ok r ctx env h]
  simp only [Wait_eq, served_isEmpty, served_err]

/-- The tasks `Serve` starts after a successful `net.Listen`. -/
theorem Serve_launched (r : Runtime) (ctx : Ctx) (env : ServeEnv) (h : env.netListen = none) :
    launched (Serve r ctx env).calls = servedTasks r (servedListener env) := by
  rw [Serve_listen_ok r ctx env h]
  simp only [Wait_eq, tlsCalls]
  split_ifs <;> rfl

theorem findSome_first (result : TaskKind → Option Err) (pre post : List TaskKind)
    (k : TaskKind) (e : Err) (hpre : ∀ j ∈ pre, result j = none) (hk : result k = some e) :
    (pre ++ k :: post).findSome? result = some e := by
  induction pre with
  | nil => simp [List.findSome?_cons, hk]
  | cons j pre ih =>
    have hj : result j = none := hpre j (List.mem_cons_self _ _)
    simp only [List.cons_append, List.findSome?_cons, hj]
    exact ih fun i hi => hpre i (List.mem_cons_of_mem _ hi)

/-- When the three serve loops have returned, the calls of `Serve` contain
the cancellation of the group's context. -/
theorem Serve_cancels (r : Runtime) (ctx : Ctx) (env : ServeEnv) (h : env.netListen = none)
    (hall : ∀ k : TaskKind, k ∈ env.completions) :
    Call.ctxCancel (.withCancel ctx) ∈ (Serve r ctx env).calls := by
  rw [Serve_listen_ok r ctx env h]
  simp only [Wait_eq, served_isEmpty, settle_ctx, (all_kinds_iff _).2 hall, if_true]
  simp [servedGroup]

/-- When a serve loop that has returned failed, the calls of `Serve` contain
the cancellation of the group's context, whether or not `Serve` returns. -/
theorem Serve_cancels_on_failure (r : Runtime) (ctx : Ctx) (env : ServeEnv)
    (h : env.netListen = none) (k : TaskKind) (e : Err) (hk : k ∈ env.completions)
    (he : env.result k = some e) :
    Call.ctxCancel (.withCancel ctx) ∈ (Serve r ctx env).calls := by
  have hsome : (env.completions.findSome? env.result).isSome = true := by
    rcases hf : env.completions.findSome? env.result with _ | v
    · have := (List.findSome?_eq_none_iff.1 hf) k hk
      rw [he] at this
      cases this
    · rfl
  have hc : ((servedGroup r ctx (servedListener env)).settle env.result
      env.completions).cancelled = true := by
    rw [settle_cancelled env.result env.completions _ rfl, served_err, hsome]
  rw [Serve_listen_ok r ctx env h]
  simp only [Wait_eq, settle_ctx, hc, if_true]
  simp [servedGroup]

/-! ## `Runtime.Serve`: the error group -/

/-- C9, counterexample: after a successful `net.Listen` the debug serve loop
fails with "debug: accept failed", the gRPC serve loop then returns nil, and
nothing makes the multiplexer's serve loop return. The group has cancelled
its context because of the failure, yet `Serve` is blocked in `Wait`: it
returns neither that error nor anything else, so it is false that `Serve`
returns the error of the first failed task as soon as a task has failed. -/
theorem Serve_failure_leaves_tasks_running :
    env2.netListen = none ∧ env2.completions = [.debug, .grpc] ∧
      env2.result .debug = some "debug: accept failed" ∧
      Call.ctxCancel (.withCancel (.root 0)) ∈ (Serve r0 (.root 0) env2).calls ∧
      (Serve r0 (.root 0) env2).out = .blocked ∧
      ¬ ((∃ k ∈ env2.completions, ∃ e, env2.result k = some e) →
        ∃ v, (Serve r0 (.root 0) env2).out = .returned v) := by
  refine ⟨rfl, rfl, rfl, by decide, rfl, ?_⟩
  intro h
  obtain ⟨v, hv⟩ := h ⟨.debug, by decide, _, rfl⟩
  have hb : (Serve r0 (.root 0) env2).out = .blocked := rfl
  rw [hb] at hv
  cases hv

/-- C9, amended: after a successful `net.Listen`, `Serve` starts exactly
three tasks under one group: gRPC `Serve` on the first listener of the
multiplexer, `Debug.Serve` on the second, and the multiplexer's `Serve`. A
failure of a task makes the group cancel the context it derived, and nothing
more: `Serve` returns exactly when all three tasks have returned, and blocks,
returning no error, while one of them is still running. Once all three have
returned it leaves no task running and returns the error of the task that
failed first in completion order, nil exactly when all three returned
nil. -/
theorem Serve_returns_once_all_tasks_returned (r : Runtime) (ctx : Ctx) (env : ServeEnv)
    (h : env.netListen = none) :
    (∃ a b m, launched (Serve r ctx env).calls =
        [.grpcServe r.Server a, .debugServe r.Debug b, .muxServe m] ∧
        m.sls.map Prod.snd = [a, b]) ∧
      ((∃ v, (Serve r ctx env).out = .returned v) ↔ ∀ k : TaskKind, k ∈ env.completions) ∧
      ((∃ k : TaskKind, k ∉ env.completions) → (Serve r ctx env).out = .blocked) ∧
      (∀ k e, k ∈ env.completions → env.result k = some e →
        Call.ctxCancel (.withCancel ctx) ∈ (Serve r ctx env).calls) ∧
      ((∀ k : TaskKind, k ∈ env.completions) →
        (Serve r ctx env).out = .returned (env.completions.findSome? env.result) ∧
        Call.ctxCancel (.withCancel ctx) ∈ (Serve r ctx env).calls ∧
        ((Serve r ctx env).out = .returned none ↔ ∀ k, env.result k = none) ∧
        ∀ pre k e post, env.completions = pre ++ k :: post →
          (∀ j ∈ pre, env.result j = none) → env.result k = some e →
          (Serve r ctx env).out = .returned (some e)) := by
  have hout := Serve_out r ctx env h
  refine ⟨⟨_, _, _, Serve_launched r ctx env h, rfl⟩, ?_, ?_, ?_, ?_⟩
  · constructor
    · rintro ⟨v, hv⟩
      by_cases hc : (env.completions.contains .grpc && env.completions.contains .debug &&
          env.completions.contains .mux) = true
      · exact (all_kinds_iff _).1 hc
      · rw [hout, if_neg hc] at hv
        exact Outcome.noConfusion hv
    · intro hall
      rw [hout, if_pos ((all_kinds_iff _).2 hall)]
      exact ⟨_, rfl⟩
  · rintro ⟨k, hk⟩
    have hc : ¬ (env.completions.contains .grpc && env.completions.contains .debug &&
        env.completions.contains .mux) = true := fun hc => hk ((all_kinds_iff _).1 hc k)
    rw [hout, if_neg hc]
  · intro k e hk he
    exact Serve_cancels_on_failure r ctx env h k e hk he
  · intro hall
    have hret : (Serve r ctx env).out = .returned (env.completions.findSome? env.result) := by
      rw [hout, if_pos ((all_kinds_iff _).2 hall)]
    refine ⟨hret, Serve_cancels r ctx env h hall, ?_, ?_⟩
    · rw [hret]
      constructor
      · intro hn k
        have hn1 : env.completions.findSome? env.result = none := by
          injection hn
        exact (List.findSome?_eq_none_iff.1 hn1) k (hall k)
      · intro hn
        have : env.completions.findSome? env.result = none :=
          List.findSome?_eq_none_iff.2 fun k _ => hn k
        rw [this]
    · intro pre k e post hks hpre hk
      rw [hret, hks, findSome_first env.result pre post k e hpre hk]

/-- Witness of C9 amended: in `env1` the multiplexer returns nil first, then
the gRPC server fails with "x", then the debug server fails with "boom", and
`Serve` returns "x"; in `env2` the multiplexer never returns and `Serve` is
blocked although the group's context has been cancelled. -/
theorem Serve_returns_once_all_tasks_returned_witness :
    (env1.netListen = none ∧ (∀ k : TaskKind, k ∈ env1.completions) ∧
        (Serve r0 (.root 0) env1).out = .returned (some "x")) ∧
      (env2.netListen = none ∧ TaskKind.mux ∉ env2.completions ∧
        (Serve r0 (.root 0) env2).out = .blocked ∧
        Call.ctxCancel (.withCancel (.root 0)) ∈ (Serve r0 (.root 0) env2).calls) :=
  ⟨⟨rfl, fun k => by cases k <;> decide,
    ((Serve_returns_once_all_tasks_returned r0 (.root 0) env1 rfl).2.2.2.2
      (fun k => by cases k <;> decide)).2.2.2 [.mux] .grpc "x" [.debug] rfl
      (fun j hj => by
        have : j = .mux := by simpa using hj
        subst this
        rfl) rfl⟩,
   ⟨rfl, by decide,
    (Serve_returns_once_all_tasks_returned r0 (.root 0) env2 rfl).2.2.1 ⟨.mux, by decide⟩,
    (Serve_returns_once_all_tasks_returned r0 (.root 0) env2 rfl).2.2.2.1 .debug _
      (by decide) rfl⟩⟩

/-! ## `Runtime.Serve` and the graceful stop -/

/-- Cancelling a context deeper than `p` leaves `p` as it was. -/
theorem done_cons_deeper (c : Ctx) (cs : List Ctx) (p : Ctx) (h : p.depth < c.depth) :
    Ctx.done (c :: cs) p = Ctx.done cs p := by
  induction p with
  | root i =>
    have hne : ¬ Ctx.root i = c := by
      intro e
      rw [← e] at h
      exact Nat.lt_irrefl _ h
    simp [Ctx.done, List.contains_cons, hne]
  | withCancel q ih =>
    have hne : ¬ Ctx.withCancel q = c := by
      intro e
      rw [← e] at h
      exact Nat.lt_irrefl _ h
    have hq : q.depth < c.depth := Nat.lt_trans (Nat.lt_succ_self _) h
    simp [Ctx.done, List.contains_cons, hne, ih hq]

/-- Cancelling contexts that are all the context derived from `p` leaves `p`
as it was. -/
theorem done_append_derived (p : Ctx) (ds cs : List Ctx)
    (h : ∀ c ∈ ds, c = Ctx.withCancel p) : Ctx.done (ds ++ cs) p = Ctx.done cs p := by
  induction ds with
  | nil => rfl
  | cons d ds ih =>
    have hd : d = Ctx.withCancel p := h d (List.mem_cons_self _ _)
    have hlt : p.depth < d.depth := by
      rw [hd]
      exact Nat.lt_succ_self _
    rw [List.cons_append, done_cons_deeper d (ds ++ cs) p hlt]
    exact ih fun c hc => h c (List.mem_cons_of_mem _ hc)

/-- `Serve` makes no teardown call, however the serve loops end. -/
theorem Serve_no_teardown (r : Runtime) (ctx : Ctx) (env : ServeEnv) :
    teardownCalls (Serve r ctx env).calls = [] := by
  rcases h : env.netListen with _ | e
  · rw [Serve_listen_ok r ctx env h]
    simp only [Wait_eq, tlsCalls]
    split_ifs <;> rfl
  · rw [Serve_listen_error r ctx env e h]
    rfl

/-- The only context `Serve` cancels is the one derived for the group. -/
theorem Serve_cancelledBy (r : Runtime) (ctx : Ctx) (env : ServeEnv) :
    ∀ c ∈ cancelledBy (Serve r ctx env).calls, c = Ctx.withCancel ctx := by
  rcases h : env.netListen with _ | e
  · rw [Serve_listen_ok r ctx env h]
    simp only [Wait_eq, tlsCalls, settle_ctx]
    split_ifs <;> simp [cancelledBy, servedGroup]
  · rw [Serve_listen_error r ctx env e h]
    simp [cancelledBy]

/-- C4, counterexample: in `env0` the gRPC serve loop fails with "boom" and
the two other serve loops keep running. `Serve` makes no call of
`GracefulStop` and none of `Debug.Shutdown`; it cancels only the context
derived for the group, and the function returned by `Shutdown` for the
context passed to `Serve` stays blocked, without a call, as long as no
signal arrives. In `env1` the gRPC and the debug serve loops both fail and
`Serve` returns the first error, again without a teardown call. -/
theorem Serve_task_error_no_graceful_stop :
    env0.result .grpc = some "boom" ∧ env0.completions = [.grpc] ∧
      (Serve r0 (.root 0) env0).out = .blocked ∧
      (Serve r0 (.root 0) env0).calls.count (.grpcGracefulStop r0.Server) = 0 ∧
      (Serve r0 (.root 0) env0).calls.count (.debugShutdown r0.Debug (.root 0)) = 0 ∧
      teardownCalls (Serve r0 (.root 0) env0).calls = [] ∧
      cancelledBy (Serve r0 (.root 0) env0).calls = [.withCancel (.root 0)] ∧
      ShutdownFunc.invoke { r := r0, ctx := .root 0, registered := [.SIGINT, .SIGKILL] }
          { delivered := [], cancelled := cancelledBy (Serve r0 (.root 0) env0).calls,
            pick := .signal, debugShutdown := none, closerClose := none } =
        ⟨[], .blocked⟩ ∧
      (Serve r0 (.root 0) env1).out = .returned (some "x") ∧
      teardownCalls (Serve r0 (.root 0) env1).calls = [] := by
  exact ⟨rfl, rfl, rfl, rfl, rfl, rfl, rfl, rfl, rfl, rfl⟩

/-- C4, amended: whatever the serve loops return, `Serve` itself calls
neither `GracefulStop` nor `Debug.Shutdown` (nor `Closer.Close`); a task
error cancels only the context the group derived inside `Serve`, so that,
with no signal delivered and the context passed to `Serve` not cancelled,
the function returned by `Shutdown` for that context stays blocked and
calls nothing. The graceful-stop calls are made by that function alone,
once each per invocation, when a relayed signal arrives or its context is
cancelled. -/
theorem Serve_task_error_cancels_group_only (r : Runtime) (ctx : Ctx) (env : ServeEnv)
    (w : World) (hsig : w.delivered = []) (hctx : ctx.done w.cancelled = false) :
    teardownCalls (Serve r ctx env).calls = [] ∧
      (∀ c ∈ cancelledBy (Serve r ctx env).calls, c = Ctx.withCancel ctx) ∧
      ∃ f, (Shutdown r ctx).out = .returned f ∧
        f.invoke { w with cancelled := cancelledBy (Serve r ctx env).calls ++ w.cancelled } =
          ⟨[], .blocked⟩ ∧
        ∀ w2 : World, w2.delivered.all (relayed [osInterrupt, osKill]) = true →
          (w2.delivered ≠ [] ∨ ctx.done w2.cancelled = true) →
          (f.invoke w2).calls.count (.grpcGracefulStop r.Server) = 1 ∧
          (f.invoke w2).calls.count (.debugShutdown r.Debug ctx) = 1 := by
  refine ⟨Serve_no_teardown r ctx env, Serve_cancelledBy r ctx env,
    { r := r, ctx := ctx, registered := [.SIGINT, .SIGKILL] }, rfl, ?_, ?_⟩
  · have hd : ctx.done (cancelledBy (Serve r ctx env).calls ++ w.cancelled) = false := by
      rw [done_append_derived ctx _ _ (Serve_cancelledBy r ctx env)]
      exact hctx
    unfold ShutdownFunc.invoke
    simp only [hsig, hd, List.any_nil, Bool.false_eq_true, if_false]
    rfl
  · intro w2 hrel htrig
    obtain ⟨msg, _, h⟩ :=
      invoke_of_trigger { r := r, ctx := ctx, registered := [.SIGINT, .SIGKILL] } w2 hrel htrig
    rw [h]
    simp [List.count_cons]

/-- Witness of C4 amended: the gRPC serve loop fails with "boom", no signal
is delivered and no context was cancelled before. -/
theorem Serve_task_error_cancels_group_only_witness :
    teardownCalls (Serve r0 (.root 0) env0).calls = [] ∧
      ∃ f, (Shutdown r0 (.root 0)).out = .returned f ∧
        f.invoke { ({ w0 with delivered := [] } : World) with
            cancelled := cancelledBy (Serve r0 (.root 0) env0).calls ++ [] } =
          ⟨[], .blocked⟩ :=
  have h := Serve_task_error_cancels_group_only r0 (.root 0) env0
    { w0 with delivered := [] } rfl rfl
  ⟨h.1, h.2.2.imp fun _ hf => ⟨hf.1, hf.2.1⟩⟩

/-! ## `Runtime.Serve`: the secure port without domains -/

/-- C6: with the address `:443` and an empty domain list, after a successful
`net.Listen`, `Serve` writes the one diagnostic about the missing domains,
creates no certificate listener, hands the bound TCP listener to the
multiplexer, starts the three serve tasks on it, and does not terminate the
process: its calls are those made for any other address `a`, with the
diagnostic added. -/
theorem Serve_secure_port_without_domains (r : Runtime) (ctx : Ctx)
    (env : ServeEnv) (a : String) (ha : a ≠ ":443") :
    (Serve r ctx { env with grpc_port := ":443", domains := [], netListen := none }).calls.take 11 =
        [.errgroupWithContext ctx, .netListen "tcp" ":443",
          .logDebug r.Log
            "failed to create tls certificates, must add domains to config.yaml before enabling tls"
            [],
          .cmuxNew (.tcp ":443"),
          .cmuxMatch (.HTTP2HeaderField "content-type" "application/grpc"),
          .cmuxMatch (.HTTP1Fast []),
          .logDebug r.Log "Starting grpc service.." [("grpc_port", ":443")],
          .groupGo (.grpcServe r.Server ⟨.tcp ":443", 0⟩),
          .logDebug r.Log "Starting debug service.." [("grpc_port", ":443")],
          .groupGo (.debugServe r.Debug ⟨.tcp ":443", 1⟩),
          .groupGo (.muxServe ⟨.tcp ":443",
            [(.HTTP2HeaderField "content-type" "application/grpc", ⟨.tcp ":443", 0⟩),
              (.HTTP1Fast [], ⟨.tcp ":443", 1⟩)]⟩)] ∧
      (∀ code, (Serve r ctx { env with grpc_port := ":443", domains := [], netListen := none }).out ≠ .exited code) ∧
      (Serve r ctx { env with grpc_port := a, netListen := none }).calls.take 10 =
        [.errgroupWithContext ctx, .netListen "tcp" a,
          .cmuxNew (.tcp a),
          .cmuxMatch (.HTTP2HeaderField "content-type" "application/grpc"),
          .cmuxMatch (.HTTP1Fast []),
          .logDebug r.Log "Starting grpc service.." [("grpc_port", a)],
          .groupGo (.grpcServe r.Server ⟨.tcp a, 0⟩),
          .logDebug r.Log "Starting debug service.." [("grpc_port", a)],
          .groupGo (.debugServe r.Debug ⟨.tcp a, 1⟩),
          .groupGo (.muxServe ⟨.tcp a,
            [(.HTTP2HeaderField "content-type" "application/grpc", ⟨.tcp a, 0⟩),
              (.HTTP1Fast [], ⟨.tcp a, 1⟩)]⟩)] ∧
      (Serve r ctx { env with grpc_port := ":443", domains := [], netListen := none }).calls.drop 11 =
        (Serve r ctx { env with grpc_port := a, netListen := none }).calls.drop 10 := by
  have h1 := Serve_listen_ok r ctx { env with grpc_port := ":443", domains := [], netListen := none } rfl
  have h2 := Serve_listen_ok r ctx { env with grpc_port := a, netListen := none } rfl
  have t1 : tlsCalls r { env with grpc_port := ":443", domains := [], netListen := none } = [.logDebug r.Log
            "failed to create tls certificates, must add domains to config.yaml before enabling tls"
            []] := rfl
  have l1 : servedListener { env with grpc_port := ":443", domains := [], netListen := none } = .tcp ":443" := rfl
  have t2 : tlsCalls r { env with grpc_port := a, netListen := none } = [] := by
    simp [tlsCalls, ha]
  have l2 : servedListener { env with grpc_port := a, netListen := none } = .tcp a := by
    simp [servedListener, ha]
  rw [t1, l1] at h1
  rw [t2, l2] at h2
  rw [h1, h2]
  refine ⟨rfl, ?_, rfl, ?_⟩
  · intro code
    simp only [Wait_eq]
    split_ifs <;> exact fun e => Outcome.noConfusion e
  · have hc : ∀ l : Listener,
        ((servedGroup r ctx l).settle env.result env.completions).cancelled =
          (env.completions.findSome? env.result).isSome := by
      intro l
      rw [settle_cancelled env.result env.completions _ rfl, served_err]
    simp only [Wait_eq, settle_ctx, served_isEmpty, served_err, hc]
    rfl

/-- Witness of C6: the other address is `:9090`. -/
theorem Serve_secure_port_without_domains_witness :
    (∀ code, (Serve r0 (.root 0) { env1 with grpc_port := ":443" }).out ≠ .exited code) ∧
      (Serve r0 (.root 0) { env1 with grpc_port := ":443" }).calls.drop 11 =
        (Serve r0 (.root 0) env1).calls.drop 10 :=
  have h := Serve_secure_port_without_domains r0 (.root 0) env1 ":9090" (by decide)
  ⟨h.2.1, h.2.2.2⟩

/-! ## Startup failures -/

/-- C10: if `zap.NewDevelopment` fails, `NewRuntime` returns that error and
no runtime, having called no other constructor; if `trace.NewTracer` fails,
it returns that error and no runtime, having constructed neither the store
nor the gRPC server; it returns a runtime exactly when both succeeded, and
then with a nil error; and if `net.Listen` fails, `Serve` ends the process
with `log.Fatal` (exit code 1) right after it, before `cmux.New` and before
any task is started. -/
theorem NewRuntime_startup_fatal (env : NewRuntimeEnv) (r : Runtime) (ctx : Ctx)
    (senv : ServeEnv) :
    (∀ e, env.zapNewDevelopment = .error e →
        NewRuntime env = ⟨[.zapNewDevelopment], .returned (none, some e)⟩) ∧
      (∀ log e, env.zapNewDevelopment = .ok log → env.traceNewTracer "grpc_server" = .error e →
        NewRuntime env =
          ⟨[.zapNewDevelopment, .transportNewMux, .traceNewTracer "grpc_server"],
            .returned (none, some e)⟩) ∧
      ((∃ rt err, (NewRuntime env).out = .returned (some rt, err)) ↔
        ∃ log c, env.zapNewDevelopment = .ok log ∧ env.traceNewTracer "grpc_server" = .ok c) ∧
      (∀ rt err, (NewRuntime env).out = .returned (some rt, err) → err = none) ∧
      (∀ e, senv.netListen = some e →
        Serve r ctx senv =
          ⟨[.errgroupWithContext ctx, .netListen "tcp" senv.grpc_port, .stdLogFatal e],
            .exited 1⟩) := by
  refine ⟨?_, ?_, ?_, ?_, fun e h => Serve_listen_error r ctx senv e h⟩
  · intro e h
    unfold NewRuntime
    rw [h]
    rfl
  · intro log e h1 h2
    unfold NewRuntime
    rw [h1]
    simp only [bind, Run.bind, call, h2, pure]
    rfl
  · unfold NewRuntime
    rcases h1 : env.zapNewDevelopment with e | log
    · constructor
      · rintro ⟨rt, err, h⟩
        exact absurd h (by intro h; cases h)
      · rintro ⟨log, c, h, _⟩
        cases h
    · rcases h2 : env.traceNewTracer "grpc_server" with e | c
      · constructor
        · rintro ⟨rt, err, h⟩
          exfalso
          simp only [bind, Run.bind, call, h2, pure] at h
          cases h
        · rintro ⟨log1, c, _, h⟩
          cases h
      · constructor
        · intro _
          exact ⟨log, c, rfl, rfl⟩
        · intro _
          simp only [bind, Run.bind, call, h2, pure]
          exact ⟨_, _, rfl⟩
  · intro rt err h
    unfold NewRuntime at h
    rcases h1 : env.zapNewDevelopment with e | log
    · rw [h1] at h
      cases h
    · rcases h2 : env.traceNewTracer "grpc_server" with e | c
      · rw [h1] at h
        simp only [bind, Run.bind, call, h2, pure] at h
        cases h
      · rw [h1] at h
        simp only [bind, Run.bind, call, h2, pure] at h
        cases h
        rfl

/-- Witness of C10: the logger fails; the tracer fails; `net.Listen` fails
with "bind: address already in use". -/
theorem NewRuntime_startup_fatal_witness :
    NewRuntime newEnvNoLogger = ⟨[.zapNewDevelopment], .returned (none, some "zap: no logger")⟩ ∧
      NewRuntime newEnvNoTracer =
        ⟨[.zapNewDevelopment, .transportNewMux, .traceNewTracer "grpc_server"],
          .returned (none, some "trace: no exporter")⟩ ∧
      Serve r0 (.root 0) { env0 with netListen := some "bind: address already in use" } =
        ⟨[.errgroupWithContext (.root 0), .netListen "tcp" ":9090",
          .stdLogFatal "bind: address already in use"], .exited 1⟩ :=
  ⟨(NewRuntime_startup_fatal newEnvNoLogger r0 (.root 0) env0).1 _ rfl,
    (NewRuntime_startup_fatal newEnvNoTracer r0 (.root 0) env0).2.1 _ _ rfl rfl,
    (NewRuntime_startup_fatal newEnvNoLogger r0 (.root 0)
      { env0 with netListen := some "bind: address already in use" }).2.2.2.2 _ rfl⟩

/-! ## Routing of connections -/

/-- Who receives a connection from the tasks `Serve` starts. -/
theorem consumers_served (r : Runtime) (l : Listener) (c : Conn) :
    consumers (servedTasks r l) c =
      if (Matcher.HTTP2HeaderField "content-type" "application/grpc").test c = true then
        [.grpcServe r.Server ⟨l, 0⟩]
      else if (Matcher.HTTP1Fast []).test c = true then [.debugServe r.Debug ⟨l, 1⟩]
      else [] := by
  have n10 : ((⟨l, 1⟩ : MuxListener) == ⟨l, 0⟩) = false := by
    rw [beq_eq_false_iff_ne]
    intro e
    cases e
  have n01 : ((⟨l, 0⟩ : MuxListener) == ⟨l, 1⟩) = false := by
    rw [beq_eq_false_iff_ne]
    intro e
    cases e
  unfold consumers servedTasks CMux.route
  by_cases h1 : (Matcher.HTTP2HeaderField "content-type" "application/grpc").test c = true
  · simp [List.flatMap, List.find?, h1, List.filter, Task.accepts, n10, n01]
  · by_cases h2 : (Matcher.HTTP1Fast []).test c = true
    · simp [List.flatMap, List.find?, h1, h2, List.filter, Task.accepts, n10, n01]
    · simp [List.flatMap, List.find?, h1, h2, List.filter, Task.accepts]

theorem test_grpc_header (pre post : List (String × String)) :
    (Matcher.HTTP2HeaderField "content-type" "application/grpc").test
      (.http2 (pre ++ ("content-type", "application/grpc") :: post)) = true := by
  simp [Matcher.test]

theorem test_http1_of_h2 (fields : List (String × String)) :
    (Matcher.HTTP1Fast []).test (.http2 fields) = false := by
  simp [Matcher.test, Conn.lead]
  decide

theorem test_http1_get (rest : String) :
    (Matcher.HTTP1Fast []).test (.bytes ("GET " ++ rest)) = true := by
  simp [Matcher.test, Conn.lead, defaultHTTPMethods]

/-- The matchers `Serve` registers after a successful `net.Listen`. -/
theorem Serve_registered (r : Runtime) (ctx : Ctx) (env : ServeEnv) (h : env.netListen = none) :
    registeredMatchers (Serve r ctx env).calls =
      [.HTTP2HeaderField "content-type" "application/grpc", .HTTP1Fast []] := by
  rw [Serve_listen_ok r ctx env h]
  simp only [Wait_eq, tlsCalls]
  split_ifs <;> rfl

/-- C7: after a successful `net.Listen`, `Serve` registers the HTTP/2
matcher of the header `content-type: application/grpc` first and the HTTP/1
matcher second; the gRPC server serves the listener of the first and the
debug HTTP server the listener of the second, and the two listeners differ.
Hence, with first-match routing, an HTTP/2 connection that sends that header
is delivered to the gRPC server only, a connection that starts with `GET `
is delivered to the debug HTTP server only, and no connection is delivered
to more than one server. -/
theorem Serve_routes_grpc_and_http1 (r : Runtime) (ctx : Ctx) (env : ServeEnv) :
    registeredMatchers (Serve r ctx { env with netListen := none }).calls =
        [.HTTP2HeaderField "content-type" "application/grpc", .HTTP1Fast []] ∧
      ∃ a b m, launched (Serve r ctx { env with netListen := none }).calls =
          [.grpcServe r.Server a, .debugServe r.Debug b, .muxServe m] ∧
        m.sls = [(.HTTP2HeaderField "content-type" "application/grpc", a),
          (.HTTP1Fast [], b)] ∧
        a ≠ b ∧
        (∀ pre post, consumers (launched (Serve r ctx { env with netListen := none }).calls)
            (.http2 (pre ++ ("content-type", "application/grpc") :: post)) =
          [.grpcServe r.Server a]) ∧
        (∀ rest, consumers (launched (Serve r ctx { env with netListen := none }).calls)
            (.bytes ("GET " ++ rest)) = [.debugServe r.Debug b]) ∧
        ∀ c, (consumers (launched (Serve r ctx { env with netListen := none }).calls)
            c).length ≤ 1 := by
  refine ⟨Serve_registered r ctx _ rfl, _, _, _, Serve_launched r ctx _ rfl, rfl, ?_, ?_, ?_, ?_⟩
  · intro e
    cases e
  · intro pre post
    rw [Serve_launched r ctx _ rfl, consumers_served, if_pos (test_grpc_header pre post)]
  · intro rest
    rw [Serve_launched r ctx _ rfl, consumers_served, if_neg, if_pos (test_http1_get rest)]
    simp [Matcher.test]
  · intro c
    rw [Serve_launched r ctx _ rfl, consumers_served]
    split_ifs <;> simp

/-- C8, counterexample: an HTTP/2 connection whose content type is
`text/html`, and a connection that starts with an SSH banner, match neither
of the two registered matchers: the multiplexer routes them to no listener
and neither server receives them. -/
theorem Serve_unmatched_not_routed_to_debug :
    registeredMatchers (Serve r0 (.root 0) env0).calls =
        [.HTTP2HeaderField "content-type" "application/grpc", .HTTP1Fast []] ∧
      (Matcher.HTTP2HeaderField "content-type" "application/grpc").test
        (.http2 [("content-type", "text/html")]) = false ∧
      consumers (launched (Serve r0 (.root 0) env0).calls)
        (.http2 [("content-type", "text/html")]) = [] ∧
      (Matcher.HTTP2HeaderField "content-type" "application/grpc").test
        (.bytes "SSH-2.0-OpenSSH_8.9") = false ∧
      consumers (launched (Serve r0 (.root 0) env0).calls) (.bytes "SSH-2.0-OpenSSH_8.9") = [] ∧
      ¬ (∀ c, (Matcher.HTTP2HeaderField "content-type" "application/grpc").test c = false →
        consumers (launched (Serve r0 (.root 0) env0).calls) c =
          [.debugServe r0.Debug ⟨.tcp ":9090", 1⟩]) := by
  refine ⟨rfl, by decide, by decide, rfl, by decide, ?_⟩
  intro h
  have h1 := h (.http2 [("content-type", "text/html")]) (by decide)
  revert h1
  decide

/-- C8, amended: the classifiers `Serve` registers are the HTTP/2 matcher of
the header `content-type: application/grpc`, for the gRPC server, and then
`HTTP1Fast`, for the debug HTTP server, which is no catch-all: a connection
that does not match the first is delivered to the debug HTTP server exactly
when its leading bytes start with an HTTP/1 request method, and is routed to
no listener otherwise. -/
theorem Serve_second_matcher_is_http1 (r : Runtime) (ctx : Ctx) (env : ServeEnv) (c : Conn)
    (hc : (Matcher.HTTP2HeaderField "content-type" "application/grpc").test c = false) :
    registeredMatchers (Serve r ctx { env with netListen := none }).calls =
        [.HTTP2HeaderField "content-type" "application/grpc", .HTTP1Fast []] ∧
      ∃ a b m, launched (Serve r ctx { env with netListen := none }).calls =
          [.grpcServe r.Server a, .debugServe r.Debug b, .muxServe m] ∧
        ((Matcher.HTTP1Fast []).test c = true →
          m.route c = some b ∧
          consumers (launched (Serve r ctx { env with netListen := none }).calls) c =
            [.debugServe r.Debug b]) ∧
        ((Matcher.HTTP1Fast []).test c = false →
          m.route c = none ∧
          consumers (launched (Serve r ctx { env with netListen := none }).calls) c = []) := by
  refine ⟨Serve_registered r ctx _ rfl, _, _, _, Serve_launched r ctx _ rfl, ?_, ?_⟩
  · intro h1
    refine ⟨?_, ?_⟩
    · simp [CMux.route, List.find?, hc, h1]
    · rw [Serve_launched r ctx _ rfl, consumers_served, if_neg (by simp [hc]), if_pos h1]
  · intro h1
    refine ⟨?_, ?_⟩
    · simp [CMux.route, List.find?, hc, h1]
    · rw [Serve_launched r ctx _ rfl, consumers_served, if_neg (by simp [hc]),
        if_neg (by simp [h1])]

/-- Witness of C8 amended: a `POST` request goes to the debug HTTP server, an
HTTP/2 connection without the gRPC content type goes nowhere. -/
theorem Serve_second_matcher_is_http1_witness :
    (∃ b, consumers (launched (Serve r0 (.root 0) { env0 with netListen := none }).calls)
        (.bytes "POST /debug HTTP/1.1") = [.debugServe r0.Debug b]) ∧
      consumers (launched (Serve r0 (.root 0) { env0 with netListen := none }).calls)
        (.http2 [("content-type", "text/html")]) = [] := by
  obtain ⟨_, a, b, m, _, h1, _⟩ :=
    Serve_second_matcher_is_http1 r0 (.root 0) env0 (.bytes "POST /debug HTTP/1.1") rfl
  obtain ⟨_, a2, b2, m2, _, _, h2⟩ :=
    Serve_second_matcher_is_http1 r0 (.root 0) env0 (.http2 [("content-type", "text/html")])
      (by decide)
  exact ⟨⟨b, (h1 (by decide)).2⟩, (h2 (by decide)).2⟩

end Grpc12Factor
